import Mathlib

/-!
Shallow embedding of `src/banking.py`: a line-oriented command interpreter
for a tiny banking DSL (CREATE / DEPOSIT / WITHDRAW / BALANCE) consisting of
a lexer, a recursive-descent parser producing statement nodes, an in-memory
account table, and an interpreter that mutates the table.

Modelling conventions:
* Python dynamic values occurring in this program (token values, balances,
  amounts) are strings, ints, or floats; they are embedded as the sum type
  `Value`.  Floats are idealised as rationals (no claim under consideration
  depends on binary floating-point rounding).
* An uncaught Python exception (AttributeError on `None`, TypeError on a
  bad operand, ValueError from `float(...)`) is embedded as an explicit
  `crash` result.
* The only randomness, `random.randint(100000, 999999)` inside
  `CreateNode.build_account_identifier`, is injected as an explicit `suffix`
  argument threaded through the parser.
* Loops over an integer index are embedded as fuel-based structural
  recursion; every entry point supplies `length + 1` fuel, which exceeds the
  number of iterations since the index strictly increases each iteration,
  so the fuel-exhaustion branch is unreachable from the entry points.
-/

/-- Python value flowing through this program: a string, an int, or a float
(idealised as a rational). -/
inductive Value where
  | str (s : String)
  | int (n : Int)
  | float (q : Rat)
deriving DecidableEq, Repr

/-- Interpretation of a value as a Python dict key / `==` comparand:
strings compare by text, numbers by numeric value (`1 == 1.0` in Python). -/
def Value.key : Value → String ⊕ Rat
  | .str s => .inl s
  | .int n => .inr (n : Rat)
  | .float q => .inr q

/-- Python `==` on the values of this program. -/
def pyEq (v w : Value) : Bool := decide (v.key = w.key)

/-- `True` exactly on numeric values (int or float). -/
def Value.isNum : Value → Bool
  | .str _ => false
  | .int _ => true
  | .float _ => true

/-- Numeric value of an int or float (0 on strings, unused there). -/
def Value.toRat : Value → Rat
  | .str _ => 0
  | .int n => (n : Rat)
  | .float q => q

/-- Python `+` restricted to the operand shapes arising here; `none` models
a TypeError (e.g. `str + int`). -/
def pyAdd : Value → Value → Option Value
  | .int m, .int n => some (.int (m + n))
  | .int m, .float q => some (.float ((m : Rat) + q))
  | .float q, .int n => some (.float (q + (n : Rat)))
  | .float p, .float q => some (.float (p + q))
  | .str a, .str b => some (.str (a ++ b))
  | _, _ => none

/-- Python `-`; `none` models a TypeError (strings do not subtract). -/
def pySub : Value → Value → Option Value
  | .int m, .int n => some (.int (m - n))
  | .int m, .float q => some (.float ((m : Rat) - q))
  | .float q, .int n => some (.float (q - (n : Rat)))
  | .float p, .float q => some (.float (p - q))
  | _, _ => none

/-- Python `<`; `none` models a TypeError (mixed string/number comparison). -/
def pyLt : Value → Value → Option Bool
  | .int m, .int n => some (decide (m < n))
  | .int m, .float q => some (decide ((m : Rat) < q))
  | .float q, .int n => some (decide (q < (n : Rat)))
  | .float p, .float q => some (decide (p < q))
  | .str a, .str b => some (decide (a < b))
  | _, _ => none

/-- Python `value != s` for a string literal `s`: false only for the equal
string (an int or float is never `==` to a string). -/
def valueNeStr (v : Value) (s : String) : Bool :=
  match v with
  | .str t => decide (t ≠ s)
  | _ => true

/-- Python `value == s` for a string literal `s`. -/
def valueEqStr (v : Value) (s : String) : Bool :=
  match v with
  | .str t => decide (t = s)
  | _ => false

/-- Token kinds, as in the `TokenType` enum. -/
inductive TokenType where
  | TT_STR
  | TT_INT
  | TT_FLOAT
  | TT_EOF
  | TT_KEYWORD
deriving DecidableEq, Repr

/-- A lexer token: a kind together with its (dynamically typed) value. -/
structure Token where
  type : TokenType
  value : Value
deriving DecidableEq, Repr

def WHITESPACE : List Char := [' ', '\t', '\n', '\r']

def KEYWORDS : List String :=
  ["DEPOSIT", "WITHDRAW", "BALANCE", "CREATE", "FIRSTNAME", "LASTNAME", "ACCOUNT"]

/-- Membership in the `WHITESPACE` constant. -/
def isWs (c : Char) : Bool := WHITESPACE.contains c

/-- Membership in the `LETTER` constant (ASCII letters). -/
def isLetter (c : Char) : Bool :=
  ('a' ≤ c && c ≤ 'z') || ('A' ≤ c && c ≤ 'Z')

/-- Membership in the `DIGIT` constant (ASCII digits). -/
def isDigitC (c : Char) : Bool := '0' ≤ c && c ≤ '9'

/-- `Lexer.lex_word`: index of the first position at or after `i` holding
whitespace or the end of input (the word occupies `[i, wordEnd)`). -/
def wordEnd : Nat → List Char → Nat → Nat
  | 0, _, i => i
  | fuel + 1, src, i =>
    match src[i]? with
    | none => i
    | some c => if isWs c then i else wordEnd fuel src (i + 1)

/-- `Lexer.lex_number`: index of the first position at or after `i` holding
a character that is neither a digit nor a decimal point. -/
def numEnd : Nat → List Char → Nat → Nat
  | 0, _, i => i
  | fuel + 1, src, i =>
    match src[i]? with
    | none => i
    | some c => if isDigitC c || c = '.' then numEnd fuel src (i + 1) else i

/-- Characters `[i, j)` of the source. -/
def listSlice (src : List Char) (i j : Nat) : List Char :=
  (src.drop i).take (j - i)

/-- Word classification at the end of `lex_word`: keyword or string token. -/
def mkWordToken (w : String) : Token :=
  if KEYWORDS.contains w then ⟨.TT_KEYWORD, .str w⟩ else ⟨.TT_STR, .str w⟩

/-- Python `int(s)` on a run of decimal digits. -/
def intOfChars (cs : List Char) : Int :=
  Int.ofNat (cs.foldl (fun acc c => 10 * acc + (c.toNat - 48)) 0)

/-- Python `float(s)` on a run of digits and dots starting with a digit:
succeeds exactly when there is a single dot; `none` models the ValueError
raised on several dots. -/
def floatOfChars (cs : List Char) : Option Rat :=
  if cs.count '.' = 1 then
    let ip := cs.takeWhile (fun c => c ≠ '.')
    let fp := (cs.dropWhile (fun c => c ≠ '.')).drop 1
    some ((intOfChars ip : Rat) + (intOfChars fp : Rat) / ((10 : Rat) ^ fp.length))
  else
    none

/-- Numeric-token construction at the end of `lex_number`: float if a dot
appeared, int otherwise; `none` models the uncaught ValueError. -/
def mkNumToken (cs : List Char) : Option Token :=
  if cs.contains '.' then
    (floatOfChars cs).map (fun q => ⟨.TT_FLOAT, .float q⟩)
  else
    some ⟨.TT_INT, .int (intOfChars cs)⟩

/-- Result of `Lexer.lex`: the Python pair `(tokens, None)`, the pair
`([], IllegalCharError(c))`, or an uncaught exception. -/
inductive LexOutcome where
  | ok (toks : List Token)
  | err (c : Char)
  | crash
deriving DecidableEq, Repr

/-- The `while` loop of `Lexer.lex`.  Note the loop executes `advance()`
once more after each arm (skipping one extra character after the whitespace
arm and after each word/number), exactly as the source does. -/
def lexLoop : Nat → List Char → Nat → List Token → LexOutcome
  | 0, _, _, _ => .crash
  | fuel + 1, src, i, toks =>
    match src[i]? with
    | none => .ok toks
    | some c =>
      if isWs c then
        lexLoop fuel src (i + 2) toks
      else if isLetter c then
        let j := wordEnd (src.length + 1) src i
        lexLoop fuel src (j + 1) (toks ++ [mkWordToken (String.mk (listSlice src i j))])
      else if isDigitC c then
        let j := numEnd (src.length + 1) src i
        match mkNumToken (listSlice src i j) with
        | none => .crash
        | some tk => lexLoop fuel src (j + 1) (toks ++ [tk])
      else
        .err c

/-- `Lexer.lex` on a source string. -/
def lex (s : String) : LexOutcome :=
  lexLoop (s.toList.length + 1) s.toList 0 []

example : lex "DEPOSIT AL000001 50" =
    .ok [⟨.TT_KEYWORD, .str "DEPOSIT"⟩, ⟨.TT_STR, .str "AL000001"⟩, ⟨.TT_INT, .int 50⟩] := by
  decide

example : lex "50)" = .ok [⟨.TT_INT, .int 50⟩] := by decide

example : lex ")" = .err ')' := by decide

/-- An account record.  In the source an account IS the `CreateNode` that
created it (`visit_CreateNode` stores the node itself), so its fields are
the node's token fields. -/
structure Account where
  firstname : Token
  lastname : Token
  balance : Token
  account_identifier : Token
deriving DecidableEq, Repr

/-- A parsed statement node (`CreateNode` / `DepositNode` / `WithdrawNode` /
`BalanceNode`). -/
inductive Node where
  | createNode (acct : Account)
  | depositNode (account_identifier amount : Token)
  | withdrawNode (account_identifier amount : Token)
  | balanceNode (account_identifier : Token)
deriving DecidableEq, Repr

/-- `ACCOUNT_NUMBER_FORMAT = "^[A-Z]{2}[0-9]{6}"`: `re.match` succeeds on a
prefix of two ASCII uppercase letters followed by six digits (no end
anchor, trailing characters are ignored). -/
def isUpperAZ (c : Char) : Bool := 'A' ≤ c && c ≤ 'Z'

def matchesAccountFormat (s : String) : Bool :=
  match s.toList with
  | c1 :: c2 :: d1 :: d2 :: d3 :: d4 :: d5 :: d6 :: _ =>
    isUpperAZ c1 && isUpperAZ c2 && isDigitC d1 && isDigitC d2 && isDigitC d3 &&
      isDigitC d4 && isDigitC d5 && isDigitC d6
  | _ => false

/-- The decimal digit character for `n % 10`-style arguments (any `n ≥ 9`
maps to `9`; callers pass values below 10). -/
def digitChar (n : Nat) : Char :=
  if n = 0 then '0'
  else if n = 1 then '1'
  else if n = 2 then '2'
  else if n = 3 then '3'
  else if n = 4 then '4'
  else if n = 5 then '5'
  else if n = 6 then '6'
  else if n = 7 then '7'
  else if n = 8 then '8'
  else '9'

/-- Decimal digits of a natural number, most significant first
(fuel-based; `natReprChars` supplies sufficient fuel). -/
def natReprCharsAux : Nat → Nat → List Char
  | 0, _ => []
  | fuel + 1, n =>
    if n < 10 then [digitChar n]
    else natReprCharsAux fuel (n / 10) ++ [digitChar (n % 10)]

/-- Python `str(n)` for a nonnegative int: its decimal digit string. -/
def natReprChars (n : Nat) : List Char :=
  natReprCharsAux (n + 1) n

/-- Python `v[0]`: the first character of a string value; `none` models the
IndexError on an empty string or the TypeError on a non-string. -/
def subscript0 : Value → Option Char
  | .str s => s.toList.head?
  | _ => none

/-- `CreateNode.build_account_identifier` with the result of
`random.randint(100000, 999999)` injected as `suffix`: first character of
the first name, first character of the last name (no case change), then
the decimal digits of the suffix. -/
def build_account_identifier (firstname lastname : Token) (suffix : Nat) : Option Token :=
  match subscript0 firstname.value, subscript0 lastname.value with
  | some c1, some c2 => some ⟨.TT_STR, .str (String.mk (c1 :: c2 :: natReprChars suffix))⟩
  | _, _ => none

/-- `CreateNode.__init__`: a falsy (absent) identifier triggers
`build_account_identifier`; `none` models the exception raised while
generating one from a bad name value. -/
def mkCreateNode (first_name last_name bal : Token) (acctId : Option Token)
    (suffix : Nat) : Option Node :=
  match acctId with
  | some t => some (.createNode ⟨first_name, last_name, bal, t⟩)
  | none =>
    (build_account_identifier first_name last_name suffix).map
      (fun t => .createNode ⟨first_name, last_name, bal, t⟩)

/-- Result of one statement sub-parser: a node together with the cursor
index of the last token it consumed, an `InvalidSyntaxError` message, or an
uncaught exception. -/
inductive PRes where
  | ok (n : Node) (i : Nat)
  | err (m : String)
  | crash
deriving DecidableEq, Repr

/-- `Parser.parse_deposit`, entered with the cursor on the DEPOSIT keyword
at index `i`.  The amount check is the source's
`if current is None and (current.type != TT_FLOAT or current.type != TT_INT)`:
with the cursor on a present token the conjunction is false (so ANY token,
a string included, is accepted as the amount), and with the cursor
exhausted Python dereferences `None.type` (AttributeError). -/
def parse_deposit (toks : List Token) (i : Nat) : PRes :=
  match toks[i + 1]? with
  | none => .err "Expected a string"
  | some t1 =>
    if t1.type ≠ TokenType.TT_STR then .err "Expected a string"
    else
      match toks[i + 2]? with
      | none => .crash
      | some t2 => .ok (.depositNode t1 t2) (i + 2)

/-- `Parser.parse_withdraw`: same shape (and same amount-check slip) as
`parse_deposit`. -/
def parse_withdraw (toks : List Token) (i : Nat) : PRes :=
  match toks[i + 1]? with
  | none => .err "Expected a string"
  | some t1 =>
    if t1.type ≠ TokenType.TT_STR then .err "Expected a string"
    else
      match toks[i + 2]? with
      | none => .crash
      | some t2 => .ok (.withdrawNode t1 t2) (i + 2)

/-- `Parser.parse_balance`: dereferences the current token without a `None`
check, so an exhausted cursor crashes. -/
def parse_balance (toks : List Token) (i : Nat) : PRes :=
  match toks[i + 1]? with
  | none => .crash
  | some t1 =>
    if t1.type = TokenType.TT_STR then .ok (.balanceNode t1) (i + 1)
    else .err "Expected a string"

/-- Result of the optional-clause loop of `parse_create`: final balance
token, optional explicit identifier, and the cursor index at loop exit. -/
inductive CLRes where
  | ok (bal : Token) (acctId : Option Token) (i : Nat)
  | err (m : String)
  | crash
deriving DecidableEq, Repr

/-- The `while self.current_token is not None` optional-clause loop of
`parse_create`: BALANCE and ACCOUNT clauses are consumed, every other
token (keyword or not) is skipped, and the loop runs until the token list
is exhausted.  A BALANCE or ACCOUNT keyword as the final token crashes
(the value check dereferences `None`). -/
def createLoop : Nat → List Token → Nat → Token → Option Token → CLRes
  | 0, _, _, _, _ => .crash
  | fuel + 1, toks, i, bal, acctId =>
    match toks[i]? with
    | none => .ok bal acctId i
    | some t =>
      if t.type = TokenType.TT_KEYWORD then
        if valueEqStr t.value "BALANCE" then
          match toks[i + 1]? with
          | none => .crash
          | some t2 =>
            if t2.type = TokenType.TT_INT ∨ t2.type = TokenType.TT_FLOAT then
              createLoop fuel toks (i + 2) t2 acctId
            else .err "Expected a number"
        else if valueEqStr t.value "ACCOUNT" then
          match toks[i + 1]? with
          | none => .crash
          | some t2 =>
            if t2.type = TokenType.TT_STR then
              match t2.value with
              | .str s =>
                if matchesAccountFormat s then createLoop fuel toks (i + 2) bal (some t2)
                else .err "Invalid account number format"
              | _ => .crash
            else .err "Expected a string"
        else createLoop fuel toks (i + 1) bal acctId
      else createLoop fuel toks (i + 1) bal acctId

/-- `Parser.parse_create`, entered with the cursor on the CREATE keyword at
index `i`.  The keyword checks are the source's
`current is None or (current.type != TT_KEYWORD and current.value != "FIRSTNAME")`
(so any keyword passes the FIRSTNAME position), and the name checks are
`current is None and current.type == TT_STR` (never an error on a present
token of any kind; a crash on an absent one). -/
def parse_create (toks : List Token) (suffix : Nat) (i : Nat) : PRes :=
  match toks[i + 1]? with
  | none => .err "Expected keyword FIRSTNAME"
  | some t1 =>
    if t1.type ≠ TokenType.TT_KEYWORD ∧ valueNeStr t1.value "FIRSTNAME" then
      .err "Expected keyword FIRSTNAME"
    else
      match toks[i + 2]? with
      | none => .crash
      | some first_name =>
        match toks[i + 3]? with
        | none => .err "Expected the keyword LASTNAME"
        | some t3 =>
          if t3.type ≠ TokenType.TT_KEYWORD ∧ valueNeStr t3.value "LASTNAME" then
            .err "Expected the keyword LASTNAME"
          else
            match toks[i + 4]? with
            | none => .crash
            | some last_name =>
              match createLoop (toks.length + 1) toks (i + 5) ⟨.TT_INT, .int 0⟩ none with
              | .err m => .err m
              | .crash => .crash
              | .ok bal acctId j =>
                match mkCreateNode first_name last_name bal acctId suffix with
                | none => .crash
                | some node => .ok node j

/-- `Parser.parse_statement`, with the cursor on index `i` (the caller's
loop guarantees a token is present; an absent one would crash on the
`current_token.type` access). -/
def parse_statement (toks : List Token) (suffix : Nat) (i : Nat) : PRes :=
  match toks[i]? with
  | none => .crash
  | some t =>
    if t.type = TokenType.TT_KEYWORD then
      if valueEqStr t.value "CREATE" then parse_create toks suffix i
      else if valueEqStr t.value "DEPOSIT" then parse_deposit toks i
      else if valueEqStr t.value "WITHDRAW" then parse_withdraw toks i
      else if valueEqStr t.value "BALANCE" then parse_balance toks i
      else .err "Expected keyword CREATE, DEPOSIT, WITHDRAW, or BALANCE"
    else .err "Expected keyword CREATE, DEPOSIT, WITHDRAW, or BALANCE"

/-- Result of `Parser.parse`: `(statements, None)`, `([], error)`, or an
uncaught exception. -/
inductive ParseOut where
  | ok (stmts : List Node)
  | err (m : String)
  | crash
deriving DecidableEq, Repr

/-- The top-level `while` loop of `Parser.parse`: one statement per
iteration, aborting the whole parse on the first error. -/
def parseLoop : Nat → List Token → Nat → Nat → List Node → ParseOut
  | 0, _, _, _, _ => .crash
  | fuel + 1, toks, suffix, i, acc =>
    match toks[i]? with
    | none => .ok acc
    | some _ =>
      match parse_statement toks suffix i with
      | .err m => .err m
      | .crash => .crash
      | .ok node j => parseLoop fuel toks suffix (j + 1) (acc ++ [node])

/-- `Parser.parse` on a token list, with the injected random suffix for any
generated account identifier. -/
def parse (toks : List Token) (suffix : Nat) : ParseOut :=
  parseLoop (toks.length + 1) toks suffix 0 []

def kwT (s : String) : Token := ⟨.TT_KEYWORD, .str s⟩
def strT (s : String) : Token := ⟨.TT_STR, .str s⟩
def intT (n : Int) : Token := ⟨.TT_INT, .int n⟩

example : parse [kwT "DEPOSIT", strT "AB123456", intT 50] 0 =
    .ok [.depositNode (strT "AB123456") (intT 50)] := by decide

example : parse [kwT "DEPOSIT", strT "AB123456", strT "abc"] 0 =
    .ok [.depositNode (strT "AB123456") (strT "abc")] := by decide

example : parse [kwT "DEPOSIT", strT "AB123456"] 0 = .crash := by decide

example : parse [kwT "BALANCE"] 0 = .crash := by decide

example :
    parse [kwT "CREATE", kwT "FIRSTNAME", strT "John", kwT "LASTNAME", strT "Doe"] 123456 =
      .ok [.createNode ⟨strT "John", strT "Doe", intT 0, strT "JD123456"⟩] := by decide

example :
    parse [kwT "CREATE", kwT "LASTNAME", strT "John", kwT "LASTNAME", strT "Doe"] 123456 =
      .ok [.createNode ⟨strT "John", strT "Doe", intT 0, strT "JD123456"⟩] := by decide

example :
    parse [kwT "CREATE", kwT "FIRSTNAME", strT "John", kwT "LASTNAME", strT "Doe",
        kwT "DEPOSIT", strT "XY123456", intT 50] 123456 =
      .ok [.createNode ⟨strT "John", strT "Doe", intT 0, strT "JD123456"⟩] := by decide

/-- `AccountTable.accounts`: a Python dict in insertion order, keyed by the
identifier token's value. -/
abbrev AccountTable : Type := List (Value × Account)

/-- `AccountTable.get_account`: dict lookup by Python key equality. -/
def get_account : AccountTable → Value → Option Account
  | [], _ => none
  | (k, a) :: rest, q => if pyEq k q then some a else get_account rest q

/-- `AccountTable.add_account`: store the account under its identifier's
value unless that key is already present; a duplicate is dropped (the
source only logs a notice — no retry, no overwrite) and signalled to the
caller by the `none` result (Python's implicit `return None`). -/
def add_account (tbl : AccountTable) (acct : Account) : AccountTable × Option Account :=
  match get_account tbl acct.account_identifier.value with
  | some _ => (tbl, none)
  | none => (tbl ++ [(acct.account_identifier.value, acct)], some acct)

/-- In-place mutation of the balance token's `value` field of the account
stored under `q` (the dict binding itself is untouched; the stored object
is updated). -/
def table_update : AccountTable → Value → Account → AccountTable
  | [], _, _ => []
  | (k, a) :: rest, q, acct =>
    if pyEq k q then (k, acct) :: rest else (k, a) :: table_update rest q acct

/-- Semantic outcome category of executing one statement (the source
reports these as printed lines). -/
inductive Outcome where
  | accountCreated (idv : Value)
  | duplicateAccount (idv : Value)
  | depositSuccess (amount idv : Value)
  | withdrawSuccess (amount idv : Value)
  | insufficientFunds (idv : Value)
  | balanceReport (idv bal : Value)
  | accountNotFound
deriving DecidableEq, Repr

/-- Result of `Interpreter.visit` on one node: the updated table and the
reported outcome, or an uncaught exception. -/
inductive VisitOut where
  | ok (tbl : AccountTable) (out : Outcome)
  | crash
deriving DecidableEq, Repr

/-- `Interpreter.visit_*`: dispatch on the node variant.  Deposit adds to
the stored balance token's value (keeping the token's type tag, as the
in-place `+=` does); Withdraw first compares and leaves the table
untouched on insufficient funds. -/
def visit (tbl : AccountTable) : Node → VisitOut
  | .createNode acct =>
    match add_account tbl acct with
    | (tbl2, some _) => .ok tbl2 (.accountCreated acct.account_identifier.value)
    | (tbl2, none) => .ok tbl2 (.duplicateAccount acct.account_identifier.value)
  | .depositNode idT amtT =>
    match get_account tbl idT.value with
    | none => .ok tbl .accountNotFound
    | some acct =>
      match pyAdd acct.balance.value amtT.value with
      | none => .crash
      | some v =>
        .ok (table_update tbl idT.value { acct with balance := ⟨acct.balance.type, v⟩ })
          (.depositSuccess amtT.value idT.value)
  | .withdrawNode idT amtT =>
    match get_account tbl idT.value with
    | none => .ok tbl .accountNotFound
    | some acct =>
      match pyLt acct.balance.value amtT.value with
      | none => .crash
      | some true => .ok tbl (.insufficientFunds idT.value)
      | some false =>
        match pySub acct.balance.value amtT.value with
        | none => .crash
        | some v =>
          .ok (table_update tbl idT.value { acct with balance := ⟨acct.balance.type, v⟩ })
            (.withdrawSuccess amtT.value idT.value)
  | .balanceNode idT =>
    match get_account tbl idT.value with
    | none => .ok tbl .accountNotFound
    | some acct => .ok tbl (.balanceReport idT.value acct.balance.value)

/-- Error result of the `run` entry point: a returned `Error` object or an
uncaught Python exception. -/
inductive RunErr where
  | illegalChar (c : Char)
  | invalidSyntax (m : String)
  | pyCrash
deriving DecidableEq, Repr

/-- `Interpreter.interpret`: execute statements strictly in order; a
non-fatal outcome does not stop later statements, an uncaught exception
does. -/
def interpretLoop (tbl : AccountTable) : List Node → AccountTable × List Outcome × Option RunErr
  | [] => (tbl, [], none)
  | n :: rest =>
    match visit tbl n with
    | .crash => (tbl, [], some .pyCrash)
    | .ok tbl2 out =>
      match interpretLoop tbl2 rest with
      | (tbl3, outs, e) => (tbl3, out :: outs, e)

/-- The `run(stream)` entry point: lex, parse, interpret, threading the
account table (the module-level `global_account_table`) explicitly and the
injected random suffix for generated identifiers.  Returns the final
table, the per-statement outcomes, and the error (if any). -/
def run (stream : String) (suffix : Nat) (tbl : AccountTable) :
    AccountTable × List Outcome × Option RunErr :=
  match lex stream with
  | .crash => (tbl, [], some .pyCrash)
  | .err c => (tbl, [], some (.illegalChar c))
  | .ok toks =>
    match parse toks suffix with
    | .crash => (tbl, [], some .pyCrash)
    | .err m => (tbl, [], some (.invalidSyntax m))
    | .ok stmts => interpretLoop tbl stmts

example :
    run "CREATE FIRSTNAME Ann LASTNAME Lee ACCOUNT AL000001 BALANCE 100" 111111 [] =
      ([(.str "AL000001", ⟨strT "Ann", strT "Lee", intT 100, strT "AL000001"⟩)],
        [.accountCreated (.str "AL000001")], none) := by decide

example :
    run "DEPOSIT AL000001 50" 111111
        [(.str "AL000001", ⟨strT "Ann", strT "Lee", intT 100, strT "AL000001"⟩)] =
      ([(.str "AL000001", ⟨strT "Ann", strT "Lee", intT 150, strT "AL000001"⟩)],
        [.depositSuccess (.int 50) (.str "AL000001")], none) := by decide

example :
    run "WITHDRAW AL000001 500" 111111
        [(.str "AL000001", ⟨strT "Ann", strT "Lee", intT 150, strT "AL000001"⟩)] =
      ([(.str "AL000001", ⟨strT "Ann", strT "Lee", intT 150, strT "AL000001"⟩)],
        [.insufficientFunds (.str "AL000001")], none) := by decide

example :
    run "BALANCE ZZ999999" 111111 [] = ([], [.accountNotFound], none) := by decide

example :
    run "CREATE FIRSTNAME John LASTNAME Doe ACCOUNT al123456" 111111 [] =
      ([], [], some (.invalidSyntax "Invalid account number format")) := by decide

/-! ### Helper lemmas -/

theorem pyEq_true_iff (v w : Value) : pyEq v w = true ↔ v.key = w.key := by
  simp [pyEq]

theorem pyEq_false_iff (v w : Value) : pyEq v w = false ↔ v.key ≠ w.key := by
  simp [pyEq]

theorem pyAdd_num (v w : Value) (hv : v.isNum = true) (hw : w.isNum = true) :
    ∃ u, pyAdd v w = some u ∧ u.isNum = true ∧ u.toRat = v.toRat + w.toRat := by
  cases v with
  | str s => simp [Value.isNum] at hv
  | int m =>
    cases w with
    | str s => simp [Value.isNum] at hw
    | int n => exact ⟨.int (m + n), rfl, rfl, by simp [Value.toRat]⟩
    | float q => exact ⟨.float ((m : Rat) + q), rfl, rfl, by simp [Value.toRat]⟩
  | float p =>
    cases w with
    | str s => simp [Value.isNum] at hw
    | int n => exact ⟨.float (p + (n : Rat)), rfl, rfl, by simp [Value.toRat]⟩
    | float q => exact ⟨.float (p + q), rfl, rfl, by simp [Value.toRat]⟩

theorem pySub_num (v w : Value) (hv : v.isNum = true) (hw : w.isNum = true) :
    ∃ u, pySub v w = some u ∧ u.isNum = true ∧ u.toRat = v.toRat - w.toRat := by
  cases v with
  | str s => simp [Value.isNum] at hv
  | int m =>
    cases w with
    | str s => simp [Value.isNum] at hw
    | int n => exact ⟨.int (m - n), rfl, rfl, by simp [Value.toRat]⟩
    | float q => exact ⟨.float ((m : Rat) - q), rfl, rfl, by simp [Value.toRat]⟩
  | float p =>
    cases w with
    | str s => simp [Value.isNum] at hw
    | int n => exact ⟨.float (p - (n : Rat)), rfl, rfl, by simp [Value.toRat]⟩
    | float q => exact ⟨.float (p - q), rfl, rfl, by simp [Value.toRat]⟩

theorem pyLt_num (v w : Value) (hv : v.isNum = true) (hw : w.isNum = true) :
    pyLt v w = some (decide (v.toRat < w.toRat)) := by
  cases v with
  | str s => simp [Value.isNum] at hv
  | int m =>
    cases w with
    | str s => simp [Value.isNum] at hw
    | int n => simp [pyLt, Value.toRat]
    | float q => simp [pyLt, Value.toRat]
  | float p =>
    cases w with
    | str s => simp [Value.isNum] at hw
    | int n => simp [pyLt, Value.toRat]
    | float q => simp [pyLt, Value.toRat]

theorem get_update_self (tbl : AccountTable) (q : Value) (a a0 : Account)
    (h : get_account tbl q = some a0) :
    get_account (table_update tbl q a) q = some a := by
  induction tbl with
  | nil => simp [get_account] at h
  | cons p rest ih =>
    obtain ⟨k, b⟩ := p
    by_cases hk : pyEq k q = true
    · simp [get_account, table_update, hk]
    · simp only [get_account, table_update, hk, Bool.false_eq_true, if_false] at h ⊢
      exact ih h

theorem get_update_other (tbl : AccountTable) (q q2 : Value) (a : Account)
    (h : q.key ≠ q2.key) :
    get_account (table_update tbl q a) q2 = get_account tbl q2 := by
  induction tbl with
  | nil => rfl
  | cons p rest ih =>
    obtain ⟨k, b⟩ := p
    by_cases hk : pyEq k q = true
    · have hk2 : pyEq k q2 = false := by
        rw [pyEq_false_iff]
        rw [pyEq_true_iff] at hk
        rw [hk]
        exact h
      simp [table_update, get_account, hk, hk2]
    · by_cases hk2 : pyEq k q2 = true
      · simp [table_update, get_account, hk, hk2]
      · simp [table_update, get_account, hk, hk2, ih]

/-! ### Claims C1-C3 -/

/-- C1: executing WITHDRAW on an existing account with a numeric balance
and amount: if `amount <= balance` the balance becomes `balance - amount`
and a success outcome is reported; if `amount > balance` the table is
returned unchanged (no partial withdrawal) with an InsufficientFunds
outcome. -/
theorem C1_withdraw_semantics (tbl : AccountTable) (idT amtT : Token) (acct : Account)
    (hget : get_account tbl idT.value = some acct)
    (hb : acct.balance.value.isNum = true) (ha : amtT.value.isNum = true) :
    (amtT.value.toRat ≤ acct.balance.value.toRat →
      ∃ tbl2 acct2,
        visit tbl (.withdrawNode idT amtT) = .ok tbl2 (.withdrawSuccess amtT.value idT.value) ∧
        get_account tbl2 idT.value = some acct2 ∧
        acct2.balance.value.toRat = acct.balance.value.toRat - amtT.value.toRat) ∧
    (acct.balance.value.toRat < amtT.value.toRat →
      visit tbl (.withdrawNode idT amtT) = .ok tbl (.insufficientFunds idT.value)) := by
  have hlt := pyLt_num acct.balance.value amtT.value hb ha
  constructor
  · intro hle
    obtain ⟨u, hsub, hunum, hurat⟩ := pySub_num acct.balance.value amtT.value hb ha
    have hfalse : decide (acct.balance.value.toRat < amtT.value.toRat) = false := by
      simp [not_lt.mpr hle]
    refine ⟨table_update tbl idT.value { acct with balance := ⟨acct.balance.type, u⟩ },
      { acct with balance := ⟨acct.balance.type, u⟩ }, ?_, ?_, ?_⟩
    · simp [visit, hget, hlt, hfalse, hsub]
    · exact get_update_self tbl idT.value _ acct hget
    · simpa using hurat
  · intro hgt
    have htrue : decide (acct.balance.value.toRat < amtT.value.toRat) = true :=
      decide_eq_true hgt
    simp [visit, hget, hlt, htrue]

theorem C1_withdraw_semantics_witness :
    ((intT 50).value.toRat ≤
        (Account.mk (strT "Ann") (strT "Lee") (intT 150) (strT "AL000001")).balance.value.toRat →
      ∃ tbl2 acct2,
        visit [(Value.str "AL000001", Account.mk (strT "Ann") (strT "Lee") (intT 150) (strT "AL000001"))]
            (.withdrawNode (strT "AL000001") (intT 50)) =
          .ok tbl2 (.withdrawSuccess (intT 50).value (strT "AL000001").value) ∧
        get_account tbl2 (strT "AL000001").value = some acct2 ∧
        acct2.balance.value.toRat =
          (Account.mk (strT "Ann") (strT "Lee") (intT 150) (strT "AL000001")).balance.value.toRat -
            (intT 50).value.toRat) ∧
    ((Account.mk (strT "Ann") (strT "Lee") (intT 150) (strT "AL000001")).balance.value.toRat <
        (intT 50).value.toRat →
      visit [(Value.str "AL000001", Account.mk (strT "Ann") (strT "Lee") (intT 150) (strT "AL000001"))]
          (.withdrawNode (strT "AL000001") (intT 50)) =
        .ok [(Value.str "AL000001", Account.mk (strT "Ann") (strT "Lee") (intT 150) (strT "AL000001"))]
          (.insufficientFunds (strT "AL000001").value)) :=
  C1_withdraw_semantics
    [(Value.str "AL000001", Account.mk (strT "Ann") (strT "Lee") (intT 150) (strT "AL000001"))]
    (strT "AL000001") (intT 50)
    (Account.mk (strT "Ann") (strT "Lee") (intT 150) (strT "AL000001"))
    (by decide) (by decide) (by decide)

/-- C2: executing DEPOSIT on an existing account with a numeric balance and
amount yields a success outcome, the account's balance becomes
`balance + amount`, and every account stored under any other key is
unchanged. -/
theorem C2_deposit_semantics (tbl : AccountTable) (idT amtT : Token) (acct : Account)
    (hget : get_account tbl idT.value = some acct)
    (hb : acct.balance.value.isNum = true) (ha : amtT.value.isNum = true) :
    ∃ tbl2 acct2,
      visit tbl (.depositNode idT amtT) = .ok tbl2 (.depositSuccess amtT.value idT.value) ∧
      get_account tbl2 idT.value = some acct2 ∧
      acct2.balance.value.toRat = acct.balance.value.toRat + amtT.value.toRat ∧
      ∀ q : Value, q.key ≠ idT.value.key → get_account tbl2 q = get_account tbl q := by
  obtain ⟨u, hadd, hunum, hurat⟩ := pyAdd_num acct.balance.value amtT.value hb ha
  refine ⟨table_update tbl idT.value { acct with balance := ⟨acct.balance.type, u⟩ },
    { acct with balance := ⟨acct.balance.type, u⟩ }, ?_, ?_, ?_, ?_⟩
  · simp [visit, hget, hadd]
  · exact get_update_self tbl idT.value _ acct hget
  · simpa using hurat
  · intro q hq
    exact get_update_other tbl idT.value q _ (Ne.symm hq)

theorem C2_deposit_semantics_witness :
    ∃ tbl2 acct2,
      visit [(Value.str "AL000001", Account.mk (strT "Ann") (strT "Lee") (intT 100) (strT "AL000001")),
          (Value.str "ZZ999999", Account.mk (strT "Bob") (strT "Fox") (intT 7) (strT "ZZ999999"))]
          (.depositNode (strT "AL000001") (intT 50)) =
        .ok tbl2 (.depositSuccess (intT 50).value (strT "AL000001").value) ∧
      get_account tbl2 (strT "AL000001").value = some acct2 ∧
      acct2.balance.value.toRat =
        (Account.mk (strT "Ann") (strT "Lee") (intT 100) (strT "AL000001")).balance.value.toRat +
          (intT 50).value.toRat ∧
      ∀ q : Value, q.key ≠ (strT "AL000001").value.key →
        get_account tbl2 q =
          get_account
            [(Value.str "AL000001", Account.mk (strT "Ann") (strT "Lee") (intT 100) (strT "AL000001")),
              (Value.str "ZZ999999", Account.mk (strT "Bob") (strT "Fox") (intT 7) (strT "ZZ999999"))] q :=
  C2_deposit_semantics
    [(Value.str "AL000001", Account.mk (strT "Ann") (strT "Lee") (intT 100) (strT "AL000001")),
      (Value.str "ZZ999999", Account.mk (strT "Bob") (strT "Fox") (intT 7) (strT "ZZ999999"))]
    (strT "AL000001") (intT 50)
    (Account.mk (strT "Ann") (strT "Lee") (intT 100) (strT "AL000001"))
    (by decide) (by decide) (by decide)

/-- C3: an attempt to add an account whose identifier key is already
present in the table leaves the table exactly unchanged (the existing
account is not overwritten, the new one is not stored, no new identifier
is generated) and returns `none` to the caller. -/
theorem C3_duplicate_insert_rejected (tbl : AccountTable) (acct old : Account)
    (h : get_account tbl acct.account_identifier.value = some old) :
    add_account tbl acct = (tbl, none) := by
  simp [add_account, h]

theorem C3_duplicate_insert_rejected_witness :
    add_account
        [(Value.str "AL000001", Account.mk (strT "Ann") (strT "Lee") (intT 100) (strT "AL000001"))]
        (Account.mk (strT "Bob") (strT "Lee") (intT 0) (strT "AL000001")) =
      ([(Value.str "AL000001", Account.mk (strT "Ann") (strT "Lee") (intT 100) (strT "AL000001"))],
        none) :=
  C3_duplicate_insert_rejected
    [(Value.str "AL000001", Account.mk (strT "Ann") (strT "Lee") (intT 100) (strT "AL000001"))]
    (Account.mk (strT "Bob") (strT "Lee") (intT 0) (strT "AL000001"))
    (Account.mk (strT "Ann") (strT "Lee") (intT 100) (strT "AL000001"))
    (by decide)

/-! ### Claims C4, C5, C8, C10 -/

/-- C4: evaluation of `parse_deposit`/`parse_withdraw` at the claim's
failing inputs.  A DEPOSIT whose amount token is a STRING is accepted and
a `DepositNode` with that string amount is produced with no error (the
source's amount condition `current is None and (...)` is false for every
present token); a DEPOSIT whose amount token is missing crashes with an
AttributeError on `None.type` instead of returning the claimed
InvalidSyntaxError.  WITHDRAW behaves identically. -/
theorem C4_amount_check_broken :
    parse [kwT "DEPOSIT", strT "AB123456", strT "abc"] 0 =
      .ok [.depositNode (strT "AB123456") (strT "abc")] ∧
    parse [kwT "DEPOSIT", strT "AB123456"] 0 = .crash ∧
    parse [kwT "WITHDRAW", strT "AB123456", strT "abc"] 0 =
      .ok [.withdrawNode (strT "AB123456") (strT "abc")] ∧
    parse [kwT "WITHDRAW", strT "AB123456"] 0 = .crash := by
  decide

/-- C5: evaluation of `parse_create` at the claim's failing inputs.
`CREATE` followed by the keyword LASTNAME instead of FIRSTNAME parses with
no error (the source's check `type != TT_KEYWORD and value != "FIRSTNAME"`
passes any keyword), and a KEYWORD token in the first-name position is
accepted as the first name (the name check
`current is None and current.type == TT_STR` is never an error on a
present token) — both contradicting the claimed InvalidSyntaxError. -/
theorem C5_create_prefix_check_broken :
    parse [kwT "CREATE", kwT "LASTNAME", strT "John", kwT "LASTNAME", strT "Doe"] 123456 =
      .ok [.createNode ⟨strT "John", strT "Doe", intT 0, strT "JD123456"⟩] ∧
    parse [kwT "CREATE", kwT "FIRSTNAME", kwT "FIRSTNAME", kwT "LASTNAME", strT "Doe"] 123456 =
      .ok [.createNode ⟨kwT "FIRSTNAME", strT "Doe", intT 0, strT "FD123456"⟩] := by
  decide

/-- C8 counterexample: for the token sequence of the two well-formed
statements `CREATE FIRSTNAME John LASTNAME Doe` and
`DEPOSIT XY123456 50`, parse returns a single-element statement sequence
holding only the CreateNode — the CREATE sub-parser's optional-clause loop
consumed the DEPOSIT statement's tokens, so no DepositNode is produced. -/
theorem C8_counterexample :
    parse [kwT "CREATE", kwT "FIRSTNAME", strT "John", kwT "LASTNAME", strT "Doe",
        kwT "DEPOSIT", strT "XY123456", intT 50] 123456 =
      .ok [.createNode ⟨strT "John", strT "Doe", intT 0, strT "JD123456"⟩] ∧
    ([Node.createNode ⟨strT "John", strT "Doe", intT 0, strT "JD123456"⟩] : List Node).length = 1 := by
  decide

/-- C8 amended: the CREATE sub-parser's optional-clause loop runs until the
token cursor is exhausted, silently skipping unrecognized tokens, so a
CREATE statement followed by a second statement parses to the CreateNode
alone and the second statement's tokens are consumed inside the CREATE
sub-parser; only when the first statement is not a CREATE (e.g. DEPOSIT
then WITHDRAW) does the top-level loop produce one node per statement. -/
theorem C8_create_swallows_rest :
    parse [kwT "CREATE", kwT "FIRSTNAME", strT "John", kwT "LASTNAME", strT "Doe",
        kwT "DEPOSIT", strT "XY123456", intT 50] 123456 =
      .ok [.createNode ⟨strT "John", strT "Doe", intT 0, strT "JD123456"⟩] ∧
    parse_create [kwT "CREATE", kwT "FIRSTNAME", strT "John", kwT "LASTNAME", strT "Doe",
        kwT "DEPOSIT", strT "XY123456", intT 50] 123456 0 =
      .ok (.createNode ⟨strT "John", strT "Doe", intT 0, strT "JD123456"⟩) 8 ∧
    parse [kwT "DEPOSIT", strT "XY123456", intT 50, kwT "WITHDRAW", strT "XY123456", intT 20] 0 =
      .ok [.depositNode (strT "XY123456") (intT 50),
        .withdrawNode (strT "XY123456") (intT 20)] := by
  decide

/-- C10: the parser is not total at its public interface: on the single
token `KEYWORD BALANCE` (identifier missing) and on
`KEYWORD CREATE, KEYWORD FIRSTNAME` (first name missing), `parse`
dereferences the absent current token and crashes instead of returning a
statement sequence or an InvalidSyntaxError. -/
theorem C10_parse_not_total :
    parse [kwT "BALANCE"] 0 = .crash ∧
    parse [kwT "CREATE", kwT "FIRSTNAME"] 0 = .crash := by
  decide

/-! ### Claim C6: generated account identifiers -/

theorem digitChar_isDigit (n : Nat) : isDigitC (digitChar n) = true := by
  unfold digitChar
  split_ifs <;> decide

theorem natReprCharsAux_digits (fuel n : Nat) :
    (natReprCharsAux fuel n).all isDigitC = true := by
  induction fuel generalizing n with
  | zero => rfl
  | succ fuel ih =>
    unfold natReprCharsAux
    split_ifs
    · simp [digitChar_isDigit]
    · simp [List.all_append, digitChar_isDigit, ih]

theorem natReprCharsAux_length (fuel n k : Nat) (hfuel : n < fuel) (hk : 10 ^ k ≤ n) :
    k + 1 ≤ (natReprCharsAux fuel n).length := by
  induction fuel generalizing n k with
  | zero => omega
  | succ fuel ih =>
    unfold natReprCharsAux
    split_ifs with hn
    · cases k with
      | zero => simp
      | succ k2 =>
        exfalso
        have h10 : 10 ≤ 10 ^ (k2 + 1) := by
          calc 10 = 10 ^ 1 := by norm_num
          _ ≤ 10 ^ (k2 + 1) := Nat.pow_le_pow_right (by norm_num) (by omega)
        omega
    · simp only [List.length_append, List.length_cons, List.length_nil]
      cases k with
      | zero => omega
      | succ k2 =>
        have hdiv : n / 10 < fuel := by
          have : n / 10 < n := Nat.div_lt_self (by omega) (by norm_num)
          omega
        have hk2 : 10 ^ k2 ≤ n / 10 := by
          rw [Nat.le_div_iff_mul_le (by norm_num : 0 < 10)]
          calc 10 ^ k2 * 10 = 10 ^ (k2 + 1) := (pow_succ 10 k2).symm
          _ ≤ n := hk
        have := ih (n / 10) k2 hdiv hk2
        omega

theorem natReprChars_digits (n : Nat) : (natReprChars n).all isDigitC = true :=
  natReprCharsAux_digits (n + 1) n

theorem natReprChars_length_ge_six (n : Nat) (h : 100000 ≤ n) :
    6 ≤ (natReprChars n).length := by
  have h5 : 10 ^ 5 ≤ n := by norm_num; omega
  have h6 := natReprCharsAux_length (n + 1) n 5 (by omega) h5
  unfold natReprChars
  omega

theorem matches_of_upper_upper_digits (c1 c2 : Char) (ds : List Char)
    (h1 : isUpperAZ c1 = true) (h2 : isUpperAZ c2 = true)
    (hlen : 6 ≤ ds.length) (hall : ds.all isDigitC = true) :
    matchesAccountFormat (String.mk (c1 :: c2 :: ds)) = true := by
  rcases ds with _ | ⟨d1, ds⟩
  · simp at hlen
  rcases ds with _ | ⟨d2, ds⟩
  · simp at hlen
  rcases ds with _ | ⟨d3, ds⟩
  · simp at hlen
  rcases ds with _ | ⟨d4, ds⟩
  · simp at hlen
  rcases ds with _ | ⟨d5, ds⟩
  · simp at hlen
  rcases ds with _ | ⟨d6, ds⟩
  · simp at hlen
  simp only [List.all_cons, Bool.and_eq_true] at hall
  show (isUpperAZ c1 && isUpperAZ c2 && isDigitC d1 && isDigitC d2 && isDigitC d3 &&
    isDigitC d4 && isDigitC d5 && isDigitC d6) = true
  simp [h1, h2, hall.1, hall.2.1, hall.2.2.1, hall.2.2.2.1, hall.2.2.2.2.1, hall.2.2.2.2.2.1]

/-- C6 counterexample: for first name `john` and last name `doe`
(lowercase) and injected suffix 123456, the generated identifier is
`jd123456` — the first letters are NOT uppercased, the result differs from
the uppercased `JD123456`, and it does not match `^[A-Z]{2}[0-9]{6}`. -/
theorem C6_counterexample :
    parse [kwT "CREATE", kwT "FIRSTNAME", strT "john", kwT "LASTNAME", strT "doe"] 123456 =
      .ok [.createNode ⟨strT "john", strT "doe", intT 0, strT "jd123456"⟩] ∧
    (strT "jd123456").value ≠ (strT "JD123456").value ∧
    matchesAccountFormat "jd123456" = false := by
  decide

/-- C6 amended: for every CREATE without an ACCOUNT clause and every
injected random suffix, the generated identifier is the first letter of
the first name followed by the first letter of the last name, both taken
verbatim (NOT uppercased), followed by the decimal digits of the suffix;
it matches `^[A-Z]{2}[0-9]{6}` whenever those two first letters are
already uppercase.  For first name John and last name Doe the identifier
is prefixed `JD`, the balance defaults to 0, and the identifier matches
the format for every 6-digit suffix. -/
theorem C6_generated_identifier (f l : String) (c1 c2 : Char)
    (hf : f.toList.head? = some c1) (hl : l.toList.head? = some c2)
    (suffix : Nat) (h1 : 100000 ≤ suffix) (h2 : suffix ≤ 999999) :
    build_account_identifier ⟨.TT_STR, .str f⟩ ⟨.TT_STR, .str l⟩ suffix =
      some ⟨.TT_STR, .str (String.mk (c1 :: c2 :: natReprChars suffix))⟩ ∧
    (isUpperAZ c1 = true → isUpperAZ c2 = true →
      matchesAccountFormat (String.mk (c1 :: c2 :: natReprChars suffix)) = true) ∧
    parse [kwT "CREATE", kwT "FIRSTNAME", strT "John", kwT "LASTNAME", strT "Doe"] suffix =
      .ok [.createNode ⟨strT "John", strT "Doe", intT 0,
        ⟨.TT_STR, .str (String.mk ('J' :: 'D' :: natReprChars suffix))⟩⟩] ∧
    matchesAccountFormat (String.mk ('J' :: 'D' :: natReprChars suffix)) = true := by
  have hf2 : f.data.head? = some c1 := hf
  have hl2 : l.data.head? = some c2 := hl
  refine ⟨?_, ?_, ?_, ?_⟩
  · simp [build_account_identifier, subscript0, hf2, hl2]
  · intro hu1 hu2
    exact matches_of_upper_upper_digits c1 c2 (natReprChars suffix) hu1 hu2
      (natReprChars_length_ge_six suffix h1) (natReprChars_digits suffix)
  · rfl
  · exact matches_of_upper_upper_digits 'J' 'D' (natReprChars suffix) (by decide) (by decide)
      (natReprChars_length_ge_six suffix h1) (natReprChars_digits suffix)

theorem C6_generated_identifier_witness :
    (build_account_identifier ⟨.TT_STR, .str "Ann"⟩ ⟨.TT_STR, .str "Lee"⟩ 314159 =
      some ⟨.TT_STR, .str (String.mk ('A' :: 'L' :: natReprChars 314159))⟩ ∧
    (isUpperAZ 'A' = true → isUpperAZ 'L' = true →
      matchesAccountFormat (String.mk ('A' :: 'L' :: natReprChars 314159)) = true) ∧
    parse [kwT "CREATE", kwT "FIRSTNAME", strT "John", kwT "LASTNAME", strT "Doe"] 314159 =
      .ok [.createNode ⟨strT "John", strT "Doe", intT 0,
        ⟨.TT_STR, .str (String.mk ('J' :: 'D' :: natReprChars 314159))⟩⟩] ∧
    matchesAccountFormat (String.mk ('J' :: 'D' :: natReprChars 314159)) = true) :=
  C6_generated_identifier "Ann" "Lee" 'A' 'L' (by decide) (by decide) 314159
    (by decide) (by decide)

/-! ### Claims C7 and C9 -/

/-- C7 counterexample: the claimed input `"50)"` does NOT abort lexing: the
`')'` that immediately follows the numeric literal is consumed by the
loop's unconditional trailing `advance()`, so lexing returns the single
INTEGER token 50 with no IllegalCharError — the character IS silently
skipped. -/
theorem C7_counterexample : lex "50)" = .ok [⟨.TT_INT, .int 50⟩] := by
  decide

/-- C7 amended: a character that is not whitespace, not a letter, and not
a digit aborts lexing with an IllegalCharError carrying that character and
an empty token list whenever the main loop's dispatch examines it (e.g. at
the start of the input) — but the single character immediately following a
numeric literal is never examined: it is skipped by the loop's trailing
`advance()`, so `"50)"` lexes to `[INTEGER 50]` with no error. -/
theorem C7_illegal_char_at_dispatch (c : Char) (rest : List Char)
    (hw : isWs c = false) (hl : isLetter c = false) (hd : isDigitC c = false) :
    lex (String.mk (c :: rest)) = .err c ∧
    lex "50)" = .ok [⟨.TT_INT, .int 50⟩] := by
  constructor
  · show lexLoop ((c :: rest).length + 1) (c :: rest) 0 [] = .err c
    simp [lexLoop, hw, hl, hd]
  · decide

theorem C7_illegal_char_at_dispatch_witness :
    (lex (String.mk (')' :: ['5', '0'])) = .err ')' ∧
    lex "50)" = .ok [⟨.TT_INT, .int 50⟩]) :=
  C7_illegal_char_at_dispatch ')' ['5', '0'] (by decide) (by decide) (by decide)

/-- C9: running `"CREATE FIRSTNAME John LASTNAME Doe ACCOUNT al123456"`
returns the InvalidSyntaxError for the account-number format, no
interpretation happens (no outcomes), and the account table is returned
unchanged, for every starting table and injected suffix; and in general a
CREATE whose ACCOUNT clause string fails the format check parses to that
error. -/
theorem C9_account_format_rejected (tbl : AccountTable) (suffix : Nat)
    (s : String) (f l : Token) (hs : matchesAccountFormat s = false) :
    run "CREATE FIRSTNAME John LASTNAME Doe ACCOUNT al123456" suffix tbl =
      (tbl, [], some (.invalidSyntax "Invalid account number format")) ∧
    parse [kwT "CREATE", kwT "FIRSTNAME", f, kwT "LASTNAME", l, kwT "ACCOUNT",
        ⟨.TT_STR, .str s⟩] suffix = .err "Invalid account number format" := by
  constructor
  · rfl
  · show parseLoop 8 _ suffix 0 [] = _
    simp [parseLoop, parse_statement, parse_create, createLoop, hs, kwT, valueEqStr, valueNeStr]

theorem C9_account_format_rejected_witness :
    (run "CREATE FIRSTNAME John LASTNAME Doe ACCOUNT al123456" 0 [] =
      ([], [], some (.invalidSyntax "Invalid account number format")) ∧
    parse [kwT "CREATE", kwT "FIRSTNAME", strT "John", kwT "LASTNAME", strT "Doe", kwT "ACCOUNT",
        ⟨.TT_STR, .str "al123456"⟩] 0 = .err "Invalid account number format") :=
  C9_account_format_rejected [] 0 "al123456" (strT "John") (strT "Doe") (by decide)
